import Mathlib

/-!
Verification of the Henalis shop backend core (app/services/shop_service.py,
app/models/shop.py, app/routers/shop.py) over a shallow list-based embedding
of the database tables.  Each service method is translated to a pure function
on the tables it touches; raised Python/SQLAlchemy exceptions surface through
an explicit error type.
-/

namespace Henalis

/-- Errors that calls of the shop service can surface to the caller.
Constructors mirror the exception kinds the code can raise: a Python
NameError for a name the module never brings into scope, and a database
integrity (foreign-key) violation at commit.  The notFound constructor is
the 404 error the routers raise; it is also the error kind the spec assigns
to several service operations, so it is included to make those claims
statable. -/
inductive ServiceError where
  | nameError (n : String)
  | integrity
  | notFound
  deriving DecidableEq, Repr

/-! ### Data model (app/models/shop.py) -/

/-- Row of the items table (class Item, app/models/shop.py lines 109-146).
The price is a Numeric(10,2) exact decimal in the source, modelled as a
scaled integer.  Opaque UUID keys are modelled as Nat.  The DB-managed
updated_at timestamp is not modelled; created_at is kept as an abstract
Nat because the newest sort orders by it. -/
structure Item where
  id : Nat
  name : String
  sku : String
  descr : String
  price : Int
  currency : String
  categoryId : Option Nat
  materialId : Option Nat
  stockQuantity : Nat
  likes : Int
  isActive : Bool
  createdAt : Nat
  deriving DecidableEq, Repr

/-- Row of the categories table (class Category, lines 40-58). -/
structure Category where
  id : Nat
  name : String
  slug : String
  deriving DecidableEq, Repr

/-- Row of the item_images table (class ItemImage, lines 152-178). -/
structure ItemImage where
  id : Nat
  itemId : Nat
  storagePath : String
  url : String
  isPrimary : Bool
  deriving DecidableEq, Repr

/-- Row of the wishlists table (class Wishlist, lines 184-206). -/
structure Wishlist where
  id : Nat
  userId : Nat
  itemId : Nat
  deriving DecidableEq, Repr

/-! ### Generic bulk helpers (shop_service.py lines 41-95)

The bulk helpers are generic over the model class and take a dict patch, so
for them a table row is modelled generically: an id plus a keyed field list.
-/

/-- Field values appearing in the generic dict patches. -/
inductive Value where
  | vStr (s : String)
  | vInt (n : Int)
  | vBool (b : Bool)
  | vNull
  deriving DecidableEq, Repr

/-- Generic table row as the bulk helpers see it: primary key plus named
columns. -/
structure Row where
  id : Nat
  fields : List (String × Value)
  deriving DecidableEq, Repr

/-- Dict of fields to set, as passed to values(**patch). -/
abbrev Patch := List (String × Value)

/-- Set one column of a row field list, overwriting the existing binding. -/
def setField : List (String × Value) → String → Value → List (String × Value)
  | [], k, v => [(k, v)]
  | (k0, v0) :: rest, k, v =>
      if k0 == k then (k, v) :: rest else (k0, v0) :: setField rest k v

/-- Apply a dict patch to a row: each provided key is written (values(**patch),
shop_service.py line 64). -/
def applyPatch (p : Patch) (r : Row) : Row :=
  { r with fields := p.foldl (fun fs kv => setField fs kv.1 kv.2) r.fields }

/-- Embeds ShopService.bulk_update_entities (lines 41-73).  Empty ids returns
0 with no statement executed (line 57).  There is no corresponding check for
an empty patch: values with no keys leaves the statement without explicit
SET values, and SQLAlchemy then fills the SET clause with the client-side
onupdate columns, here the updated_at onupdate func.now() column that every
model this helper is used with declares (app/models/shop.py lines 52, 75,
97, 128).  The UPDATE therefore still executes and commits, touching only
that database-managed timestamp on the matched rows and returning their
count.  Timestamps are outside the modelled row fields (as with
Item.updated_at), so in the model the matched rows pass through applyPatch
with the empty patch unchanged.  With a non-empty patch the UPDATE applies
the patch to every row whose id is in ids; in all executed cases rowcount is
the number of rows matched. -/
def bulk_update_entities (table : List Row) (ids : List Nat) (patch : Patch) :
    List Row × Except ServiceError Nat :=
  if ids.isEmpty then (table, .ok 0)
  else
    (table.map (fun r => if ids.contains r.id then applyPatch patch r else r),
     .ok (table.countP (fun r => ids.contains r.id)))

/-- Embeds ShopService.bulk_delete_entities (lines 75-95): empty ids returns 0,
otherwise DELETE WHERE id IN ids, returning the number of rows matched. -/
def bulk_delete_entities (table : List Row) (ids : List Nat) :
    List Row × Except ServiceError Nat :=
  if ids.isEmpty then (table, .ok 0)
  else
    (table.filter (fun r => !(ids.contains r.id)),
     .ok (table.countP (fun r => ids.contains r.id)))

/-! ### Item listing (shop_service.py lines 100-209) -/

/-- Python truthiness of an optional string argument: None and the empty
string are falsy. -/
def truthy : Option String → Bool
  | none => false
  | some s => s != ""

/-- Comma split and strip of the tags argument (line 157). -/
def splitTags (t : String) : List String :=
  ((t.splitOn ",").map String.trim).filter (fun s => s != "")

/-- Ordering used by order_by for each sort key (lines 183-190): price-low is
price ascending, price-high price descending, most-loved likes descending,
anything else created_at descending (newest). -/
def sortLe (sort : String) (a b : Item) : Bool :=
  if sort == "price-low" then decide (a.price ≤ b.price)
  else if sort == "price-high" then decide (b.price ≤ a.price)
  else if sort == "most-loved" then decide (b.likes ≤ a.likes)
  else decide (b.createdAt ≤ a.createdAt)

/-- Insert into a sorted list, keeping earlier elements first on ties. -/
def insertSorted (le : Item → Item → Bool) (x : Item) : List Item → List Item
  | [] => [x]
  | y :: ys => if le x y then x :: y :: ys else y :: insertSorted le x ys

/-- Insertion sort realizing the SQL ORDER BY of the listing query. -/
def sortItems (le : Item → Item → Bool) : List Item → List Item
  | [] => []
  | x :: xs => insertSorted le x (sortItems le xs)

/-- Shape of the dict returned by the listing (lines 206-209): the page of
items plus meta with total, limit and offset. -/
structure ItemsPage where
  items : List Item
  total : Nat
  limit : Nat
  offset : Nat
  deriving DecidableEq, Repr

/-- Embeds ShopService.get_items_with_filters (lines 100-209).  The module
only brings select, update, delete, func and and_ into scope from sqlalchemy
(line 21), yet the category branch calls or_ (line 135), the material and
tags branches call String (lines 147, 161) and the q branch calls or_
(line 172): entering any of those branches raises a Python NameError, which
this embedding surfaces as ServiceError.nameError carrying the first
offending name in source evaluation order.  A truthy tags argument whose
comma split is empty adds no filter and raises nothing (lines 156-158).
The price bounds (lines 150-153) and is_active (lines 164-165) filters, the
distinct de-duplication (line 180), the ORDER BY (lines 183-190) and the
LIMIT/OFFSET page (line 197) execute normally.  The total in meta is
computed by the separate query select(func.count(Item.id)) (line 203),
a count of the whole items table that ignores every filter. -/
def get_items_with_filters (items : List Item)
    (category material : Option String)
    (priceMin priceMax : Option Int)
    (tags : Option String) (isActive : Option Bool) (q : Option String)
    (sort : String) (limit offset : Nat) :
    Except ServiceError ItemsPage :=
  if truthy category then .error (.nameError "or_")
  else if truthy material then .error (.nameError "String")
  else
    let f1 : List Item := match priceMin with
      | some p => items.filter (fun i => decide (p ≤ i.price))
      | none => items
    let f2 : List Item := match priceMax with
      | some p => f1.filter (fun i => decide (i.price ≤ p))
      | none => f1
    if truthy tags && !(splitTags (tags.getD "")).isEmpty then
      .error (.nameError "String")
    else
      let f3 : List Item := match isActive with
        | some b => f2.filter (fun i => i.isActive == b)
        | none => f2
      if truthy q then .error (.nameError "or_")
      else
        let sorted := sortItems (sortLe sort) f3.eraseDups
        .ok { items := (sorted.drop offset).take limit,
              total := items.length, limit := limit, offset := offset }

/-! ### Image helpers (shop_service.py lines 263-294) -/

/-- Embeds ShopService.set_primary_image (lines 263-294): a first UPDATE sets
is_primary = False on every image of item_id (lines 272-277), a second UPDATE
sets is_primary = True on images matching both image_id and item_id
(lines 280-285); after the commit the image is re-read by id alone (line 290)
with scalar_one_or_none and returned.  No existence or ownership check is
made and no error is raised for a missing or foreign image. -/
def set_primary_image (images : List ItemImage) (imageId itemId : Nat) :
    List ItemImage × Option ItemImage :=
  let cleared := images.map fun im =>
    if im.itemId == itemId then { im with isPrimary := false } else im
  let afterSet := cleared.map fun im =>
    if im.id == imageId && im.itemId == itemId then { im with isPrimary := true } else im
  (afterSet, afterSet.find? (fun im => im.id == imageId))

/-- Number of images of the given item currently flagged primary. -/
def primaryCount (images : List ItemImage) (itemId : Nat) : Nat :=
  images.countP (fun im => im.itemId == itemId && im.isPrimary)

/-! ### Likes (shop_service.py lines 318-335) -/

/-- Embeds ShopService.increment_item_likes (lines 318-335): a single UPDATE
with likes = likes + 1 on rows matching the id, a commit, then a re-read of
the item which may be none.  The only exception path in the source re-raises
a SQLAlchemyError from the database itself, so with an available database
the call always returns ok; in particular no NotFound is ever raised. -/
def increment_item_likes (items : List Item) (itemId : Nat) :
    Except ServiceError (List Item × Option Item) :=
  let updated := items.map fun i =>
    if i.id == itemId then { i with likes := i.likes + 1 } else i
  .ok (updated, updated.find? (fun i => i.id == itemId))

/-! ### Wishlist (shop_service.py lines 349-369) -/

/-- State touched by the wishlist service: the items and wishlists tables
plus a fresh-id fountain modelling the uuid4 column default. -/
structure WishDB where
  items : List Item
  wishlists : List Wishlist
  nextId : Nat
  deriving DecidableEq, Repr

/-- Embeds ShopService.add_to_wishlist (lines 349-369): first a SELECT for an
existing (user_id, item_id) entry, returned as is when present; otherwise a
new row is added and committed.  The source never checks that the item
exists; the wishlists.item_id foreign key makes the commit fail with an
integrity violation when it does not, which the except branch rolls back
(leaving the state unchanged) and re-raises (lines 363-369). -/
def add_to_wishlist (db : WishDB) (userId itemId : Nat) :
    WishDB × Except ServiceError Wishlist :=
  match db.wishlists.find? (fun w => w.userId == userId && w.itemId == itemId) with
  | some existing => (db, .ok existing)
  | none =>
      if db.items.any (fun i => i.id == itemId) then
        let entry : Wishlist := { id := db.nextId, userId := userId, itemId := itemId }
        ({ db with wishlists := db.wishlists ++ [entry], nextId := db.nextId + 1 },
         .ok entry)
      else
        (db, .error .integrity)

/-! ### Category deletion (app/routers/shop.py lines 122-134) -/

/-- State touched by the category deletion route. -/
structure CatalogDB where
  categories : List Category
  items : List Item
  deriving DecidableEq, Repr

/-- Embeds the delete_category route (app/routers/shop.py lines 122-134): a
SELECT of the category, a 404 NotFound when absent, otherwise an ORM
session delete followed by commit.  Because the Category.items relationship
declares cascade all, delete-orphan (app/models/shop.py line 55), the ORM
delete cascades to every item of the category and deletes those rows too;
this ORM cascade takes precedence over the SET NULL rule of the
items.category_id foreign key (line 121), which would only apply to a
database-level delete that bypasses the ORM cascade. -/
def delete_category (db : CatalogDB) (categoryId : Nat) :
    CatalogDB × Except ServiceError Unit :=
  if db.categories.any (fun c => c.id == categoryId) then
    ({ categories := db.categories.filter (fun c => !(c.id == categoryId)),
       items := db.items.filter (fun i => !(i.categoryId == some categoryId)) },
     .ok ())
  else
    (db, .error .notFound)

/-! ### Concrete fixtures used by the closed theorems -/

/-- An active sample item. -/
def itemA : Item :=
  { id := 1, name := "Sofa", sku := "SOFA-1", descr := "a sofa", price := 100,
    currency := "USD", categoryId := none, materialId := none,
    stockQuantity := 1, likes := 0, isActive := true, createdAt := 2 }

/-- An inactive sample item. -/
def itemB : Item :=
  { itemA with id := 2, sku := "CHAIR-1", isActive := false, createdAt := 1 }

/-- Sample image: primary image of item 10. -/
def img1 : ItemImage :=
  { id := 1, itemId := 10, storagePath := "p1", url := "u1", isPrimary := true }

/-- Sample image: second, non-primary image of item 10. -/
def img2 : ItemImage :=
  { id := 2, itemId := 10, storagePath := "p2", url := "u2", isPrimary := false }

/-- Sample image: non-primary image of a different item 20. -/
def img3 : ItemImage :=
  { id := 3, itemId := 20, storagePath := "p3", url := "u3", isPrimary := false }

/-- Sample generic row. -/
def row1 : Row := { id := 1, fields := [("name", Value.vStr "x")] }

/-- Second sample generic row. -/
def row2 : Row := { id := 2, fields := [("name", Value.vStr "y")] }

/-- Sample category for the deletion scenario. -/
def cat1 : Category := { id := 1, name := "Living Room", slug := "living-room" }

/-- Sample item belonging to cat1. -/
def item5 : Item := { itemA with id := 5, sku := "TBL-1", categoryId := some 1 }

/-! ### Helper lemmas -/

/-- Action of set_primary_image on a single stored image: the chosen image of
the item becomes primary, every other image of the item loses the flag, and
images of other items are untouched. -/
def spiStep (imageId itemId : Nat) (im : ItemImage) : ItemImage :=
  if im.id == imageId && im.itemId == itemId then { im with isPrimary := true }
  else if im.itemId == itemId then { im with isPrimary := false }
  else im

/-- The table produced by set_primary_image is the pointwise spiStep image of
the input table. -/
theorem spi_fst (images : List ItemImage) (imageId itemId : Nat) :
    (set_primary_image images imageId itemId).1 = images.map (spiStep imageId itemId) := by
  unfold set_primary_image
  simp only [List.map_map]
  apply List.map_congr_left
  intro im _
  simp only [Function.comp_apply, spiStep]
  by_cases h2 : im.itemId == itemId
  · by_cases h1 : im.id == imageId
    · simp [h1, h2]
    · simp [h1, h2]
  · simp [h2]

/-- A predicate that pins the id of anything it accepts holds for exactly one
element of a table with pairwise distinct ids, given one member satisfying
it. -/
theorem countP_eq_one_of_key (k : Nat) (p : ItemImage → Bool)
    (hp : ∀ im, p im = true → im.id = k) :
    ∀ l : List ItemImage, (l.map ItemImage.id).Nodup →
      (∃ im ∈ l, p im = true) → l.countP p = 1 := by
  intro l
  induction l with
  | nil =>
      intro _ hex
      rcases hex with ⟨im, him, _⟩
      cases him
  | cons a t ih =>
      intro hnd hex
      rw [List.map_cons, List.nodup_cons] at hnd
      by_cases hpa : p a = true
      · have ht : t.countP p = 0 := by
          rw [List.countP_eq_zero]
          intro b hb hpb
          apply hnd.1
          have hbk : b.id = k := hp b hpb
          have hak : a.id = k := hp a hpa
          rw [hak, ← hbk]
          exact List.mem_map_of_mem ItemImage.id hb
        rw [List.countP_cons, if_pos hpa, ht]
      · rcases hex with ⟨im, him, hpim⟩
        rcases List.mem_cons.mp him with h | h
        · exact absurd (h ▸ hpim) hpa
        · rw [List.countP_cons, if_neg hpa, Nat.add_zero]
          exact ih hnd.2 ⟨im, h, hpim⟩

/-- C2: after every successful set_primary_image call for an image that exists
and belongs to the given item, exactly one image of that item has
is_primary = true; in particular each of two successive calls for different
images of the same item leaves exactly one primary image. -/
theorem c2_set_primary_image_unique_primary
    (images : List ItemImage) (imageId itemId : Nat)
    (hnd : (images.map ItemImage.id).Nodup)
    (hex : ∃ im ∈ images, im.id = imageId ∧ im.itemId = itemId) :
    primaryCount (set_primary_image images imageId itemId).1 itemId = 1 := by
  rw [spi_fst]
  unfold primaryCount
  rw [List.countP_map]
  have hpt : ∀ im : ItemImage,
      ((fun im : ItemImage => im.itemId == itemId && im.isPrimary) ∘ spiStep imageId itemId) im
        = (im.id == imageId && im.itemId == itemId) := by
    intro im
    simp only [Function.comp_apply, spiStep]
    by_cases h1 : im.id == imageId <;> by_cases h2 : im.itemId == itemId <;>
      simp [h1, h2]
  rw [show ((fun im : ItemImage => im.itemId == itemId && im.isPrimary) ∘ spiStep imageId itemId)
        = (fun im : ItemImage => im.id == imageId && im.itemId == itemId) from funext hpt]
  refine countP_eq_one_of_key imageId _ ?_ images hnd ?_
  · intro im h
    simp only [Bool.and_eq_true, beq_iff_eq] at h
    exact h.1
  · rcases hex with ⟨im, him, h1, h2⟩
    exact ⟨im, him, by simp [h1, h2]⟩

/-- C2 witness: a concrete three-image table in which image 2 of item 10 is
made primary, leaving exactly one primary image for item 10. -/
theorem c2_set_primary_image_unique_primary_witness :
    primaryCount (set_primary_image [img1, img2, img3] 2 10).1 10 = 1 :=
  c2_set_primary_image_unique_primary [img1, img2, img3] 2 10 (by decide)
    ⟨img2, by decide, rfl, rfl⟩

/-- Bumped copy of an item: likes incremented, all other fields intact. -/
def bumpLikes (i : Item) : Item := { i with likes := i.likes + 1 }

/-- C5 (amended): when the item exists, increment_item_likes returns the item
with likes equal to its previous value plus one, produced by the single
update expression, leaving every other field and every other item unchanged;
when the item does not exist the update matches no row and the call returns
the unchanged table and none instead of failing with NotFound. -/
theorem c5_increment_item_likes_amended (items : List Item) (itemId : Nat)
    (hnd : (items.map Item.id).Nodup) :
    ((∀ j ∈ items, j.id ≠ itemId) →
      increment_item_likes items itemId = .ok (items, none)) ∧
    (∀ pre im post, items = pre ++ im :: post → im.id = itemId →
      increment_item_likes items itemId =
        .ok (pre ++ bumpLikes im :: post, some (bumpLikes im))) := by
  constructor
  · intro habs
    unfold increment_item_likes
    have hmap : items.map
        (fun i => if i.id == itemId then { i with likes := i.likes + 1 } else i) = items := by
      conv_rhs => rw [← List.map_id items]
      apply List.map_congr_left
      intro j hj
      simp [habs j hj]
    rw [hmap]
    have hfind : items.find? (fun i => i.id == itemId) = none := by
      rw [List.find?_eq_none]
      intro j hj
      simp [habs j hj]
    simp only [hfind]
  · intro pre im post hsplit hid
    subst hsplit
    have hnd' := hnd
    rw [List.map_append, List.map_cons] at hnd'
    have hmid := List.nodup_middle.mp hnd'
    rw [List.nodup_cons] at hmid
    have hnotmem := hmid.1
    rw [List.mem_append] at hnotmem
    push_neg at hnotmem
    have hpre : ∀ j ∈ pre, (j.id == itemId) = false := by
      intro j hj
      have hne : j.id ≠ im.id := by
        intro h
        exact hnotmem.1 (h ▸ List.mem_map_of_mem Item.id hj)
      rw [hid] at hne
      simpa using hne
    have hpost : ∀ j ∈ post, (j.id == itemId) = false := by
      intro j hj
      have hne : j.id ≠ im.id := by
        intro h
        exact hnotmem.2 (h ▸ List.mem_map_of_mem Item.id hj)
      rw [hid] at hne
      simpa using hne
    unfold increment_item_likes
    rw [List.map_append, List.map_cons]
    have hpre_map : pre.map
        (fun i => if i.id == itemId then { i with likes := i.likes + 1 } else i) = pre := by
      conv_rhs => rw [← List.map_id pre]
      apply List.map_congr_left
      intro j hj
      simp [hpre j hj]
    have hpost_map : post.map
        (fun i => if i.id == itemId then { i with likes := i.likes + 1 } else i) = post := by
      conv_rhs => rw [← List.map_id post]
      apply List.map_congr_left
      intro j hj
      simp [hpost j hj]
    rw [hpre_map, hpost_map]
    have him : (if im.id == itemId then { im with likes := im.likes + 1 } else im)
        = bumpLikes im := by
      simp [hid, bumpLikes]
    rw [him]
    have hfind : (pre ++ bumpLikes im :: post).find? (fun i => i.id == itemId)
        = some (bumpLikes im) := by
      rw [List.find?_append]
      have h1 : pre.find? (fun i => i.id == itemId) = none := by
        rw [List.find?_eq_none]
        intro j hj
        simp [hpre j hj]
      rw [h1]
      have h2 : (bumpLikes im :: post).find? (fun i => i.id == itemId)
          = some (bumpLikes im) := by
        apply List.find?_cons_of_pos
        simp [bumpLikes, hid]
      rw [h2]
      rfl
    simp only [hfind]

/-- C5 witness for the amended claim: incrementing the likes of the stored
item 1 returns it with likes 1 and changes nothing else. -/
theorem c5_increment_item_likes_amended_witness :
    increment_item_likes [itemA] 1 = .ok ([bumpLikes itemA], some (bumpLikes itemA)) :=
  (c5_increment_item_likes_amended [itemA] 1 (by decide)).2 [] itemA [] rfl rfl

/-- C5 counterexample to the claim as stated: on an empty items table the call
returns ok with none instead of failing with NotFound (no error of any kind
is produced). -/
theorem c5_increment_item_likes_missing_returns_none :
    increment_item_likes [] 1 = .ok ([], none) := rfl

/-- C1: the total returned by the item listing does not equal the number of
stored items satisfying the supplied filters.  On a two-item store where only
one item passes the is_active filter, the call succeeds, the page holds the
one matching item, yet meta total is 2, the size of the whole table. -/
theorem c1_total_counts_all_items :
    get_items_with_filters [itemA, itemB] none none none none none (some true) none
        "newest" 12 0 = .ok { items := [itemA], total := 2, limit := 12, offset := 0 } ∧
    ([itemA, itemB].filter (fun i => i.isActive == true)).length = 1 := by
  constructor
  · rfl
  · rfl

/-- C3: a call with a non-empty category argument does not complete; it raises
a Python NameError because the or_ used by the category branch is never
imported by the module. -/
theorem c3_category_filter_name_error :
    get_items_with_filters [itemA, itemB] (some "living-room") none none none none none none
      "newest" 12 0 = .error (.nameError "or_") := rfl

/-- C4: set_primary_image raises no NotFound when the image belongs to a
different item or does not exist, and it leaves the item with zero primary
images although one existed before the call.  Concretely, with image 1 the
primary image of item 10 and image 3 an image of item 20, asking to make
image 3 primary for item 10 returns the foreign image 3 without error and
clears the only primary flag of item 10; asking for the absent image 99
returns none without error with the same loss of the primary flag. -/
theorem c4_set_primary_image_never_not_found :
    set_primary_image [img1, img3] 3 10 =
        ([{ img1 with isPrimary := false }, img3], some img3) ∧
    primaryCount [img1, img3] 10 = 1 ∧
    primaryCount (set_primary_image [img1, img3] 3 10).1 10 = 0 ∧
    set_primary_image [img1, img3] 99 10 =
        ([{ img1 with isPrimary := false }, img3], none) := by
  refine ⟨by decide, by decide, by decide, by decide⟩

/-- C6 counterexample to the claim as stated: with a non-empty ids list [1]
and an empty patch on a one-row table whose row has id 1, bulk_update_entities
does not return 0; the UPDATE executes (its SET clause is filled by the
updated_at onupdate column) and the call returns the matched rowcount 1. -/
theorem c6_bulk_update_empty_patch_not_zero :
    bulk_update_entities [row1] [1] [] = ([row1], .ok 1) := rfl

/-- C6 (amended): bulk_update_entities with an empty ids list returns 0 and
performs no writes; with a non-empty ids list and an empty patch there is no
no-op check: the UPDATE still executes and commits, writing only the
database-managed updated_at timestamp of the matched rows (every modelled
row field is unchanged), and the call returns the matched rowcount instead
of 0. -/
theorem c6_bulk_update_noop_amended (table : List Row) (ids : List Nat) (patch : Patch) :
    (ids = [] → bulk_update_entities table ids patch = (table, .ok 0)) ∧
    (ids ≠ [] → patch = [] →
      bulk_update_entities table ids patch =
        (table, .ok (table.countP (fun r => ids.contains r.id)))) := by
  constructor
  · intro h
    subst h
    rfl
  · intro hids hpatch
    subst hpatch
    have hide : ids.isEmpty = false := by
      match ids, hids with
      | a :: l, _ => rfl
    unfold bulk_update_entities
    rw [hide, if_neg Bool.false_ne_true]
    have hmap : table.map (fun r => if ids.contains r.id then applyPatch [] r else r)
        = table := by
      conv_rhs => rw [← List.map_id table]
      apply List.map_congr_left
      intro r _
      by_cases h : ids.contains r.id = true
      · rw [if_pos h]
        rfl
      · rw [if_neg h]
        rfl
    rw [hmap]

/-- C6 witness: the amended claim applied to a one-row table, for an empty ids
list and for the empty-patch case returning the matched rowcount 1. -/
theorem c6_bulk_update_noop_amended_witness :
    bulk_update_entities [row1] [] [("name", Value.vNull)] = ([row1], .ok 0) ∧
    bulk_update_entities [row1] [1] [] = ([row1], .ok 1) :=
  ⟨(c6_bulk_update_noop_amended [row1] [] [("name", Value.vNull)]).1 rfl,
   (c6_bulk_update_noop_amended [row1] [1] []).2 (by decide) rfl⟩

/-- C7: deleting a category does not keep its items with category_id cleared;
the ORM cascade declared on Category.items deletes them.  With category 1
owning item 5, the delete succeeds and the items table is left empty. -/
theorem c7_delete_category_cascades_items :
    item5 ∈ (CatalogDB.mk [cat1] [item5]).items ∧
    delete_category (CatalogDB.mk [cat1] [item5]) 1 =
      ({ categories := [], items := [] }, .ok ()) := by
  refine ⟨by decide, rfl⟩

/-- C8: add_to_wishlist is idempotent.  Starting from a state whose wishlist
table has no entry for the pair and whose items table holds the item, the
first call creates exactly one entry for the pair and a second call with the
same arguments returns that same entry unchanged, leaves the state untouched,
raises no error and creates no duplicate. -/
theorem c8_add_to_wishlist_idempotent (db : WishDB) (u i : Nat)
    (hitem : db.items.any (fun it => it.id == i) = true)
    (hnone : ∀ w ∈ db.wishlists, ¬ (w.userId = u ∧ w.itemId = i)) :
    ∃ db1 e, add_to_wishlist db u i = (db1, .ok e) ∧
      db1.wishlists.countP (fun w => w.userId == u && w.itemId == i) = 1 ∧
      add_to_wishlist db1 u i = (db1, .ok e) := by
  have hfind : db.wishlists.find? (fun w => w.userId == u && w.itemId == i) = none := by
    rw [List.find?_eq_none]
    intro w hw
    simp only [Bool.and_eq_true, beq_iff_eq]
    exact hnone w hw
  refine ⟨WishDB.mk db.items (db.wishlists ++ [Wishlist.mk db.nextId u i]) (db.nextId + 1),
    Wishlist.mk db.nextId u i, ?_, ?_, ?_⟩
  · unfold add_to_wishlist
    rw [hfind]
    simp [hitem]
  · simp only [List.countP_append]
    have h0 : db.wishlists.countP (fun w => w.userId == u && w.itemId == i) = 0 := by
      rw [List.countP_eq_zero]
      intro w hw
      simp only [Bool.and_eq_true, beq_iff_eq]
      exact hnone w hw
    rw [h0]
    simp [List.countP_cons]
  · unfold add_to_wishlist
    have hfind2 : (db.wishlists ++ [(⟨db.nextId, u, i⟩ : Wishlist)]).find?
        (fun w => w.userId == u && w.itemId == i) = some ⟨db.nextId, u, i⟩ := by
      rw [List.find?_append, hfind]
      simp [List.find?]
    simp only
    rw [hfind2]

/-- C8 witness: the idempotency statement at a concrete one-item store and an
empty wishlist. -/
theorem c8_add_to_wishlist_idempotent_witness :
    ∃ db1 e, add_to_wishlist (WishDB.mk [itemA] [] 0) 7 1 = (db1, .ok e) ∧
      db1.wishlists.countP (fun w => w.userId == 7 && w.itemId == 1) = 1 ∧
      add_to_wishlist db1 7 1 = (db1, .ok e) :=
  c8_add_to_wishlist_idempotent (WishDB.mk [itemA] [] 0) 7 1 (by decide) (by simp)

/-- C9 counterexample to the claim as stated: adding a wishlist entry for an
item that does not exist fails with the foreign-key integrity error of the
commit, not with NotFound, and the state is unchanged (so no entry is
created). -/
theorem c9_add_to_wishlist_missing_item_integrity :
    add_to_wishlist (WishDB.mk [] [] 0) 1 2 = (WishDB.mk [] [] 0, .error .integrity) ∧
    ServiceError.integrity ≠ ServiceError.notFound := by
  refine ⟨rfl, by decide⟩

/-- C9 (amended): whenever the referenced item does not exist and no entry for
the pair is already stored, add_to_wishlist fails with the foreign-key
integrity error raised at commit (not NotFound), leaves the state unchanged
and therefore creates no wishlist entry. -/
theorem c9_add_to_wishlist_missing_item_amended (db : WishDB) (u i : Nat)
    (hnoitem : ∀ it ∈ db.items, it.id ≠ i)
    (hnoentry : ∀ w ∈ db.wishlists, ¬ (w.userId = u ∧ w.itemId = i)) :
    add_to_wishlist db u i = (db, .error .integrity) := by
  have hfind : db.wishlists.find? (fun w => w.userId == u && w.itemId == i) = none := by
    rw [List.find?_eq_none]
    intro w hw
    simp only [Bool.and_eq_true, beq_iff_eq]
    exact hnoentry w hw
  have hany : db.items.any (fun it => it.id == i) = false := by
    rw [List.any_eq_false]
    intro it hit
    simp [hnoitem it hit]
  unfold add_to_wishlist
  rw [hfind]
  simp [hany]

/-- C9 witness: the amended claim applied to the empty store. -/
theorem c9_add_to_wishlist_missing_item_amended_witness :
    add_to_wishlist (WishDB.mk [] [] 0) 3 4 = (WishDB.mk [] [] 0, .error .integrity) :=
  c9_add_to_wishlist_missing_item_amended (WishDB.mk [] [] 0) 3 4 (by simp) (by simp)

/-- C10: bulk update and bulk delete called with ids of which only some match
stored rows do not error: the update patches exactly the matching rows and
keeps every non-matching row, the delete removes exactly the matching rows,
and both return the number of rows actually affected, which is the matched
count rather than the length of ids. -/
theorem c10_bulk_partial_match (table : List Row) (ids : List Nat) (patch : Patch)
    (hids : ids ≠ []) (hpatch : patch ≠ []) :
    (∃ table1 n, bulk_update_entities table ids patch = (table1, .ok n) ∧
      n = (table.filter (fun r => ids.contains r.id)).length ∧
      table1.length = table.length ∧
      (∀ r ∈ table, ids.contains r.id = false → r ∈ table1) ∧
      (∀ r ∈ table, ids.contains r.id = true → applyPatch patch r ∈ table1)) ∧
    (∃ table2 m, bulk_delete_entities table ids = (table2, .ok m) ∧
      m = (table.filter (fun r => ids.contains r.id)).length ∧
      (∀ r ∈ table2, r ∈ table ∧ ids.contains r.id = false) ∧
      (∀ r ∈ table, ids.contains r.id = false → r ∈ table2)) := by
  have hide : ids.isEmpty = false := by
    match ids, hids with
    | a :: l, _ => rfl
  constructor
  · refine ⟨table.map (fun r => if ids.contains r.id then applyPatch patch r else r),
      table.countP (fun r => ids.contains r.id), ?_, ?_, ?_, ?_, ?_⟩
    · unfold bulk_update_entities
      rw [hide]
      rfl
    · exact List.countP_eq_length_filter _ _
    · exact List.length_map _ _
    · intro r hr hmiss
      have hmem := List.mem_map_of_mem
        (fun r => if ids.contains r.id then applyPatch patch r else r) hr
      simp only [hmiss, Bool.false_eq_true, if_false] at hmem
      exact hmem
    · intro r hr hhit
      have hmem := List.mem_map_of_mem
        (fun r => if ids.contains r.id then applyPatch patch r else r) hr
      simp only [hhit, if_true] at hmem
      exact hmem
  · refine ⟨table.filter (fun r => !(ids.contains r.id)),
      table.countP (fun r => ids.contains r.id), ?_, ?_, ?_, ?_⟩
    · unfold bulk_delete_entities
      rw [hide]
      rfl
    · exact List.countP_eq_length_filter _ _
    · intro r hr
      have hsp := List.mem_filter.mp hr
      refine ⟨hsp.1, ?_⟩
      simpa using hsp.2
    · intro r hr hmiss
      exact List.mem_filter.mpr ⟨hr, by simp only [hmiss, Bool.not_false]⟩

/-- C10 witness: on a two-row table with one matching and one absent id, both
bulk operations succeed and report 1 affected row, less than the two ids
supplied. -/
theorem c10_bulk_partial_match_witness :
    (∃ table1 n, bulk_update_entities [row1, row2] [2, 99] [("name", Value.vStr "z")] =
        (table1, .ok n) ∧
      n = ([row1, row2].filter (fun r => [2, 99].contains r.id)).length ∧
      table1.length = [row1, row2].length ∧
      (∀ r ∈ [row1, row2], [2, 99].contains r.id = false → r ∈ table1) ∧
      (∀ r ∈ [row1, row2], [2, 99].contains r.id = true →
        applyPatch [("name", Value.vStr "z")] r ∈ table1)) ∧
    (∃ table2 m, bulk_delete_entities [row1, row2] [2, 99] = (table2, .ok m) ∧
      m = ([row1, row2].filter (fun r => [2, 99].contains r.id)).length ∧
      (∀ r ∈ table2, r ∈ [row1, row2] ∧ [2, 99].contains r.id = false) ∧
      (∀ r ∈ [row1, row2], [2, 99].contains r.id = false → r ∈ table2)) :=
  c10_bulk_partial_match [row1, row2] [2, 99] [("name", Value.vStr "z")]
    (by decide) (by decide)

end Henalis
